import Mathlib

/-!
A shallow embedding of the job-aggregation server (`src/server.js.js`) and
proofs about its behaviour.

Modelling conventions:
* JavaScript strings are Lean `String`; a value that may be `undefined` is an
  `Option`.
* `x || d` on strings follows JavaScript truthiness: both `undefined` and the
  empty string select the default.  On numbers, `0` is falsy.
* Timestamps are natural numbers (milliseconds).  Each textual occurrence of
  `Date.now()` / `new Date()` in the source is a separate read of an ambient
  clock; we pass an explicit read sequence `clock : Nat → Nat`, indexed by the
  order in which the reads occur during evaluation.
* `Date.prototype.toLocaleDateString` renders a timestamp at day granularity in
  a host-locale format; we model the rendering as the day index since the epoch
  prefixed with a constant marker.  Claims about dates are stated on the
  underlying day arithmetic, which the model preserves exactly.
* An HTTP fetch (`axios.get`) is an oracle argument: either a well-typed
  response body, or `fail`, which covers a transport error, a non-2xx status
  and a body without the expected fields (all of which end in the handler's
  `catch` in the source).
-/

/-- JavaScript `x || d` where `x` is a possibly-undefined string and `d` a
string default: `undefined` and `""` are falsy and select the default. -/
def jsOr (x : Option String) (d : String) : String :=
  match x with
  | some s => if s = "" then d else s
  | none => d

/-- JavaScript `x || y` where both sides are possibly-undefined strings
(used for `job.ApplyURI?.[0] || job.PositionURI`). -/
def jsOrO (x : Option String) (y : Option String) : Option String :=
  match x with
  | some s => if s = "" then y else some s
  | none => y

/-- JavaScript truthiness of a possibly-undefined number: `undefined` and `0`
are falsy. -/
def jsTruthyN (x : Option Nat) : Bool :=
  match x with
  | some n => decide (n ≠ 0)
  | none => false

/-- JavaScript truthiness of a possibly-undefined string: `undefined` and `""`
are falsy. -/
def jsTruthyS (x : Option String) : Bool :=
  match x with
  | some s => decide (s ≠ "")
  | none => false

/-- Template interpolation of `x || ''` for a possibly-undefined number:
a falsy value renders as the empty string, a truthy number as its decimal
representation. -/
def numOrEmpty (x : Option Nat) : String :=
  match x with
  | some n => if n = 0 then "" else toString n
  | none => ""

/-- Template interpolation of `x || ''` for a possibly-undefined string. -/
def strOrEmpty (x : Option String) : String :=
  match x with
  | some s => s
  | none => ""

/-- Day index of a millisecond timestamp (86400000 ms per day). -/
def dayIndex (ms : Nat) : Nat :=
  ms / 86400000

/-- Model of `new Date(ms).toLocaleDateString()`: the locale rendering is
abstracted as the day index since the epoch behind a constant marker.  The
day arithmetic is exactly that of the source. -/
def localeDateString (ms : Nat) : String :=
  "day " ++ toString (dayIndex ms)

/-- Model of `new Date(t).toLocaleDateString()` where `t` may be `undefined`:
`new Date(undefined)` is an invalid date, which renders as `"Invalid Date"`. -/
def jsDateString (t : Option Nat) : String :=
  match t with
  | some ms => localeDateString ms
  | none => "Invalid Date"

/-- Helper of `jsSplit`: split the remaining characters, `acc` holding the
current piece reversed. -/
def jsSplitAux (sep : Char) : List Char → List Char → List String
  | [], acc => [String.mk acc.reverse]
  | c :: cs, acc =>
    if c = sep then String.mk acc.reverse :: jsSplitAux sep cs []
    else jsSplitAux sep cs (c :: acc)

/-- JavaScript `s.split(sep)` for a one-character separator: `""` splits to
`[""]`, and adjacent separators produce empty pieces. -/
def jsSplit (sep : Char) (s : String) : List String :=
  jsSplitAux sep s.toList []

/-- Standard base64 alphabet. -/
def base64Chars : List Char :=
  "ABCDEFGHIJKLMNOPQRSTUVWXYZabcdefghijklmnopqrstuvwxyz0123456789+/".toList

/-- One base64 digit. -/
def base64Digit (n : Nat) : Char :=
  base64Chars.getD n '?'

/-- Base64 of a byte list (used for Reed's HTTP Basic auth header). -/
def base64Encode : List Nat → String
  | [] => ""
  | [a] =>
    String.mk [base64Digit (a / 4), base64Digit (a % 4 * 16)] ++ "=="
  | [a, b] =>
    String.mk [base64Digit (a / 4), base64Digit (a % 4 * 16 + b / 16),
      base64Digit (b % 16 * 4)] ++ "="
  | a :: b :: c :: rest =>
    String.mk [base64Digit (a / 4), base64Digit (a % 4 * 16 + b / 16),
      base64Digit (b % 16 * 4 + c / 64), base64Digit (c % 64)] ++
      base64Encode rest

/-- UTF-8 encoding of one character, as byte values. -/
def utf8Bytes (c : Char) : List Nat :=
  let n := c.toNat
  if n < 128 then [n]
  else if n < 2048 then [192 + n / 64, 128 + n % 64]
  else if n < 65536 then [224 + n / 4096, 128 + n / 64 % 64, 128 + n % 64]
  else [240 + n / 262144, 128 + n / 4096 % 64, 128 + n / 64 % 64, 128 + n % 64]

/-- `Buffer.from(s).toString('base64')`. -/
def base64OfString (s : String) : String :=
  base64Encode (s.toList.map utf8Bytes).flatten

/-- Characters `encodeURIComponent` leaves unescaped. -/
def uriUnreserved (c : Char) : Bool :=
  c.isAlphanum || c = '-' || c = '_' || c = '.' || c = '!' || c = '~' ||
    c = '*' || c = '(' || c = ')'

/-- One hexadecimal digit (upper case). -/
def hexDigit (n : Nat) : Char :=
  "0123456789ABCDEF".toList.getD n '?'

/-- Percent-encoding of one byte. -/
def percentByte (n : Nat) : String :=
  String.mk ['%', hexDigit (n / 16), hexDigit (n % 16)]

/-- Model of JavaScript `encodeURIComponent`: unreserved characters pass
through, every other character is percent-encoded bytewise from its UTF-8
encoding. -/
def encodeURIComponent (s : String) : String :=
  String.join (s.toList.map fun c =>
    if uriUnreserved c then String.singleton c
    else String.join ((utf8Bytes c).map percentByte))

/-- The unified job record (§3 of the spec).  Every field of the JavaScript
object is modelled as a possibly-undefined string: the adapters copy some
provider fields through unchanged, and those may be `undefined`. -/
structure Job where
  id : Option String
  title : Option String
  company : Option String
  location : Option String
  salary : Option String
  description : Option String
  url : Option String
  posted : Option String
  source : Option String
deriving DecidableEq, Repr

/-- The process environment, `process.env`. -/
def Env : Type := String → Option String

/-- `API_KEYS.adzuna.appId` (line 31). -/
def adzunaAppId (env : Env) : String :=
  jsOr (env "ADZUNA_APP_ID") "your_adzuna_app_id"

/-- `API_KEYS.adzuna.appKey` (line 32). -/
def adzunaAppKey (env : Env) : String :=
  jsOr (env "ADZUNA_APP_KEY") "your_adzuna_app_key"

/-- `API_KEYS.reed` (line 34). -/
def reedApiKey (env : Env) : String :=
  jsOr (env "REED_API_KEY") "your_reed_api_key"

/-- `API_KEYS.usajobs` (line 35). -/
def usajobsApiKey (env : Env) : String :=
  jsOr (env "USAJOBS_API_KEY") "your_usajobs_api_key"

/-- The query parameters a single-provider endpoint reads from `req.query`.
A missing parameter is `none`; destructuring defaults apply only then. -/
structure JobQuery where
  keywords : Option String := none
  location : Option String := none
  page : Option String := none
  resultsPerPage : Option String := none
deriving DecidableEq, Repr

/-- One outbound `axios.get` call: URL, query-string params, headers. -/
structure OutboundCall where
  url : String
  params : List (String × String)
  headers : List (String × String)
deriving DecidableEq, Repr

/-- The outbound Adzuna request (lines 45–54). -/
def adzunaCall (env : Env) (q : JobQuery) : OutboundCall where
  url := "https://api.adzuna.com/v1/api/jobs/gb/search/" ++ q.page.getD "1"
  params :=
    [("app_id", adzunaAppId env),
     ("app_key", adzunaAppKey env),
     ("what", q.keywords.getD "software engineer"),
     ("where", q.location.getD "london"),
     ("results_per_page", q.resultsPerPage.getD "20"),
     ("content_type", "application/json")]
  headers := []

/-- The outbound Reed request (lines 89–97). -/
def reedCall (env : Env) (q : JobQuery) : OutboundCall where
  url := "https://www.reed.co.uk/api/1.0/search"
  params :=
    [("keywords", q.keywords.getD "software engineer"),
     ("location", q.location.getD "london")]
  headers :=
    [("Authorization", "Basic " ++ base64OfString (reedApiKey env ++ ":"))]

/-- The outbound USAJobs request (lines 132–141). -/
def usajobsCall (env : Env) (q : JobQuery) : OutboundCall where
  url := "https://data.usajobs.gov/api/search"
  params :=
    [("Keyword", q.keywords.getD "software"),
     ("LocationName", q.location.getD "washington dc")]
  headers :=
    [("Authorization-Key", usajobsApiKey env),
     ("User-Agent", "JobSearchApp/1.0")]

/-- One Adzuna result item, with exactly the fields the adapter reads.
`company_display_name` stands for `job.company?.display_name` (collapsing a
missing `company` and a missing `display_name`), likewise for location. -/
structure AdzunaJob where
  id : Option String := none
  title : Option String := none
  company_display_name : Option String := none
  location_display_name : Option String := none
  salary_min : Option Nat := none
  salary_max : Option Nat := none
  description : Option String := none
  redirect_url : Option String := none
  created : Option Nat := none
deriving DecidableEq, Repr

/-- Adzuna salary formatting (lines 61–62):
`job.salary_min || job.salary_max ? ⬝£${job.salary_min || ''} - £${job.salary_max || ''}⬝ : 'Salary not specified'`. -/
def adzunaSalary (mn mx : Option Nat) : String :=
  if jsTruthyN mn || jsTruthyN mx then
    "£" ++ numOrEmpty mn ++ " - £" ++ numOrEmpty mx
  else "Salary not specified"

/-- The Adzuna field mapping (lines 56–67). -/
def adzunaMapJob (j : AdzunaJob) : Job where
  id := j.id
  title := j.title
  company := some (jsOr j.company_display_name "Unknown Company")
  location := some (jsOr j.location_display_name "Location not specified")
  salary := some (adzunaSalary j.salary_min j.salary_max)
  description := j.description
  url := j.redirect_url
  posted := some (jsDateString j.created)
  source := some "Adzuna"

/-- One Reed result item, with exactly the fields the adapter reads. -/
structure ReedJob where
  jobId : Option String := none
  jobTitle : Option String := none
  employerName : Option String := none
  locationName : Option String := none
  minimumSalary : Option Nat := none
  maximumSalary : Option Nat := none
  jobDescription : Option String := none
  jobUrl : Option String := none
  date : Option Nat := none
deriving DecidableEq, Repr

/-- Reed salary formatting (lines 104–105), same shape as Adzuna's. -/
def reedSalary (mn mx : Option Nat) : String :=
  if jsTruthyN mn || jsTruthyN mx then
    "£" ++ numOrEmpty mn ++ " - £" ++ numOrEmpty mx
  else "Salary not specified"

/-- The Reed field mapping (lines 99–110). -/
def reedMapJob (j : ReedJob) : Job where
  id := j.jobId
  title := j.jobTitle
  company := j.employerName
  location := j.locationName
  salary := some (reedSalary j.minimumSalary j.maximumSalary)
  description := j.jobDescription
  url := j.jobUrl
  posted := some (jsDateString j.date)
  source := some "Reed"

/-- One entry of `PositionRemuneration`. -/
structure USARem where
  minimumRange : Option String := none
  maximumRange : Option String := none
deriving DecidableEq, Repr

/-- `MatchedObjectDescriptor.UserArea.Details`. -/
structure USADetails where
  jobSummary : Option String := none
deriving DecidableEq, Repr

/-- `MatchedObjectDescriptor.UserArea`. -/
structure USAUserArea where
  details : Option USADetails := none
deriving DecidableEq, Repr

/-- One USAJobs `MatchedObjectDescriptor`, with the fields the adapter reads. -/
structure USAJob where
  matchedObjectId : Option String := none
  positionTitle : Option String := none
  organizationName : Option String := none
  positionLocationDisplay : Option String := none
  positionRemuneration : List USARem := []
  userArea : Option USAUserArea := none
  applyURI : List String := []
  positionURI : Option String := none
  positionStartDate : Option Nat := none
deriving DecidableEq, Repr

/-- USAJobs salary formatting (lines 150–151), on `PositionRemuneration?.[0]`:
the ranges are strings in this API, and the guard is their truthiness. -/
def usaSalary (rem : Option USARem) : String :=
  match rem with
  | some r =>
    if jsTruthyS r.minimumRange || jsTruthyS r.maximumRange then
      "$" ++ strOrEmpty r.minimumRange ++ " - $" ++ strOrEmpty r.maximumRange
    else "Salary not specified"
  | none => "Salary not specified"

/-- The USAJobs field mapping (lines 143–157).  `job.UserArea.Details` has no
optional chaining in the source: if `UserArea` or `Details` is missing, the
property access throws a `TypeError`, which the endpoint's `catch` converts to
the fallback response. -/
def usajobsMapJob (j : USAJob) : Except String Job :=
  match j.userArea with
  | none => .error "TypeError"
  | some ua =>
    match ua.details with
    | none => .error "TypeError"
    | some d =>
      .ok { id := j.matchedObjectId
            title := j.positionTitle
            company := j.organizationName
            location := j.positionLocationDisplay
            salary := some (usaSalary j.positionRemuneration.head?)
            description := d.jobSummary
            url := jsOrO j.applyURI.head? j.positionURI
            posted := some (jsDateString j.positionStartDate)
            source := some "USAJobs" }

/-- `getFallbackJobs` (lines 231–269).  `clock i` is the value of the `i`-th
ambient time read, in the order the reads occur: record 1's `Date.now()` in
its `id`, record 1's `new Date()` in `posted`, then the same two reads for
record 2 and record 3.  The source calls `Date.now()` separately for each
record; nothing forces the reads to coincide. -/
def getFallbackJobs (keywords location source : Option String)
    (clock : Nat → Nat) : List Job :=
  [{ id := some ("1-" ++ toString (clock 0))
     title := some (jsOr keywords "Software" ++ " Developer")
     company := some "Tech Innovations Inc."
     location := some (jsOr location "Remote")
     salary := some "$80,000 - $120,000"
     description := some ("We are looking for a skilled " ++
       jsOr keywords "software" ++ " developer to join our growing team.")
     url := some ("https://www.example.com/jobs/" ++
       encodeURIComponent (jsOr keywords "software") ++ "-developer")
     posted := some (localeDateString (clock 1))
     source := some (jsOr source "Fallback") },
   { id := some ("2-" ++ toString (clock 2))
     title := some ("Senior " ++ jsOr keywords "Software" ++ " Engineer")
     company := some "Digital Solutions Ltd."
     location := some (jsOr location "New York, NY")
     salary := some "$120,000 - $160,000"
     description := some ("Senior " ++ jsOr keywords "software" ++
       " position with leadership responsibilities.")
     url := some ("https://www.example.com/jobs/senior-" ++
       encodeURIComponent (jsOr keywords "software"))
     posted := some (localeDateString (clock 3 - 86400000))
     source := some (jsOr source "Fallback") },
   { id := some ("3-" ++ toString (clock 4))
     title := some (jsOr keywords "Software" ++ " Specialist")
     company := some "Tech Corp"
     location := some (jsOr location "San Francisco, CA")
     salary := some "$90,000 - $130,000"
     description := some ("Join our team as a " ++ jsOr keywords "software" ++
       " specialist.")
     url := some ("https://www.example.com/jobs/" ++
       encodeURIComponent (jsOr keywords "software") ++ "-specialist")
     posted := some (localeDateString (clock 5 - 172800000))
     source := some (jsOr source "Fallback") }]

/-- The outcome of an `axios.get`: a well-typed body, or `fail`, covering a
transport failure, a non-2xx status, or a body lacking the fields the handler
reads (every one of these reaches the handler's `catch`). -/
inductive Fetch (α : Type) where
  | ok (body : α)
  | fail
deriving DecidableEq

/-- Adzuna response body as far as the handler reads it. -/
structure AdzunaBody where
  results : List AdzunaJob
  count : Option Nat := none
deriving DecidableEq

/-- Reed response body as far as the handler reads it. -/
structure ReedBody where
  results : List ReedJob
  totalResults : Option Nat := none
deriving DecidableEq

/-- USAJobs response body as far as the handler reads it
(`response.data.SearchResult`). -/
structure USABody where
  searchResultItems : List USAJob
  searchResultCount : Option Nat := none
deriving DecidableEq

/-- The JSON body of a single-provider response, plus its HTTP status.
`total` is absent on the failure path, `error` on the success path. -/
structure SingleResp where
  status : Nat
  success : Bool
  error : Option String := none
  jobs : List Job
  total : Option Nat := none
deriving DecidableEq

/-- The `GET /api/jobs/adzuna` handler (lines 41–82): one outbound call, then
either the mapped results or the 500 fallback body.  On the failure path the
source passes the raw `req.query.keywords` / `req.query.location` (no
destructuring defaults) to `getFallbackJobs`. -/
def adzunaHandler (env : Env) (q : JobQuery) (fetch : Fetch AdzunaBody)
    (clock : Nat → Nat) : List OutboundCall × SingleResp :=
  ([adzunaCall env q],
   match fetch with
   | .ok body =>
     { status := 200, success := true,
       jobs := body.results.map adzunaMapJob, total := body.count }
   | .fail =>
     { status := 500, success := false,
       error := some "Failed to fetch jobs from Adzuna",
       jobs := getFallbackJobs q.keywords q.location (some "Adzuna") clock })

/-- The `GET /api/jobs/reed` handler (lines 85–125). -/
def reedHandler (env : Env) (q : JobQuery) (fetch : Fetch ReedBody)
    (clock : Nat → Nat) : List OutboundCall × SingleResp :=
  ([reedCall env q],
   match fetch with
   | .ok body =>
     { status := 200, success := true,
       jobs := body.results.map reedMapJob, total := body.totalResults }
   | .fail =>
     { status := 500, success := false,
       error := some "Failed to fetch jobs from Reed",
       jobs := getFallbackJobs q.keywords q.location (some "Reed") clock })

/-- The `GET /api/jobs/usajobs` handler (lines 128–172).  The per-item mapping
can itself throw (`job.UserArea.Details`); a throw inside `.map` lands in the
same `catch` as a fetch failure. -/
def usajobsHandler (env : Env) (q : JobQuery) (fetch : Fetch USABody)
    (clock : Nat → Nat) : List OutboundCall × SingleResp :=
  ([usajobsCall env q],
   match fetch with
   | .ok body =>
     match body.searchResultItems.mapM usajobsMapJob with
     | .ok jobs =>
       { status := 200, success := true,
         jobs := jobs, total := body.searchResultCount }
     | .error _ =>
       { status := 500, success := false,
         error := some "Failed to fetch jobs from USAJobs",
         jobs := getFallbackJobs q.keywords q.location (some "USAJobs") clock }
   | .fail =>
     { status := 500, success := false,
       error := some "Failed to fetch jobs from USAJobs",
       jobs := getFallbackJobs q.keywords q.location (some "USAJobs") clock })

/-- The duplicate test of the combined search (line 211):
`j.title === job.title && j.company === job.company`.  JavaScript `===` on two
`undefined` values is true, matching equality of `Option String`. -/
def sameKeyB (a b : Job) : Bool :=
  decide (a.title = b.title) && decide (a.company = b.company)

/-- The deduplication key: the ordered pair (title, company). -/
def jobKey (j : Job) : Option String × Option String :=
  (j.title, j.company)

/-- JavaScript `Array.prototype.filter` with the element's index passed to the
callback (the combined search's dedup callback uses `(job, index, self)`). -/
def jsFilterIdx (p : Nat → α → Bool) : List α → Nat → List α
  | [], _ => []
  | y :: ys, i =>
    if p i y then y :: jsFilterIdx p ys (i + 1) else jsFilterIdx p ys (i + 1)

/-- `uniqueJobs` (lines 210–212): keep the element at `index` exactly when
`index` equals `self.findIndex` of the first element with the same
(title, company) pair. -/
def uniqueJobs (jobs : List Job) : List Job :=
  jsFilterIdx (fun i job => decide (jobs.findIdx (fun j => sameKeyB j job) = i))
    jobs 0

/-- First-occurrence deduplication as the spec words it ("the ordered pair
(title, company), case-sensitive exact match; first occurrence wins"), written
independently of the source's findIndex formulation, to be compared with
`uniqueJobs`. -/
def dedupFirstOcc : List Job → List Job
  | [] => []
  | x :: xs => x :: dedupFirstOcc (xs.filter (fun y => !(sameKeyB y x)))
termination_by l => l.length
decreasing_by
  simp only [List.length_cons]
  exact Nat.lt_succ_of_le (List.length_filter_le _ _)

/-- Dedup with an explicit set of already-seen keys; a bridge between the
source's findIndex formulation and the spec's first-occurrence wording. -/
def dedupSeen (seen : List (Option String × Option String)) :
    List Job → List Job
  | [] => []
  | x :: xs =>
    if jobKey x ∈ seen then dedupSeen seen xs
    else x :: dedupSeen (jobKey x :: seen) xs

/-- An Express query-parameter value: a plain string, an array (the parameter
was given more than once, or with bracket syntax), or absent. -/
inductive QVal where
  | str (s : String)
  | arr (l : List String)
  | undef
deriving DecidableEq

/-- The JSON body of a combined-search success response. -/
structure SearchResp where
  status : Nat
  success : Bool
  error : Option String := none
  jobs : List Job
  total : Nat
  sources : List String
deriving DecidableEq

/-- What the combined-search handler does with the request: send a success
response, send the catch-path 500 response, or crash before any response is
sent (the async handler rejects and Express 4 sends nothing). -/
inductive SearchOutcome where
  | responded (r : SearchResp)
  | failed (r : SingleResp)
  | crashed (e : String)
deriving DecidableEq

/-- Resolution of an identifier against the bindings in scope: an unbound name
throws a `ReferenceError`; a bound name may still hold `undefined`. -/
def jsScopeLookup (scope : List (String × Option String)) (name : String) :
    Except String (Option String) :=
  match scope.find? (fun p => p.1 = name) with
  | some p => .ok p.2
  | none => .error "ReferenceError"

/-- The catch block of `GET /api/jobs/search` (lines 220–227).  It evaluates
`getFallbackJobs(keywords, location, 'Multiple Sources')`, resolving
`keywords` and `location` in the scope visible to the catch block.  In the
source both are `const`-declared inside the try block (line 177), so the catch
scope binds neither and the evaluation throws a `ReferenceError`. -/
def searchCatch (scope : List (String × Option String)) (clock : Nat → Nat) :
    Except String SingleResp := do
  let kw ← jsScopeLookup scope "keywords"
  let loc ← jsScopeLookup scope "location"
  .ok { status := 500, success := false, error := some "Search failed",
        jobs := getFallbackJobs kw loc (some "Multiple Sources") clock }

/-- The combined list (lines 180–207): a promise is pushed for each of
`adzuna`, `reed`, `usajobs` in that fixed order when `sourceList.includes` it,
and `flatMap` concatenates the settled results in the same order.  `adz`,
`reed`, `usa` are the `jobs` arrays the three inner requests yield (an inner
transport failure is caught and contributes `[]`). -/
def searchMerge (toks : List String) (adz reed usa : List Job) : List Job :=
  (if "adzuna" ∈ toks then adz else []) ++
  (if "reed" ∈ toks then reed else []) ++
  (if "usajobs" ∈ toks then usa else [])

/-- The success response of the combined search (lines 214–219). -/
def searchRespond (toks : List String) (adz reed usa : List Job) :
    SearchOutcome :=
  let u := uniqueJobs (searchMerge toks adz reed usa)
  .responded { status := 200, success := true, jobs := u, total := u.length,
               sources := toks }

/-- The `GET /api/jobs/search` handler (lines 175–228).  `sources` defaults to
`'adzuna,reed,usajobs'` only when absent; a non-string value makes
`sources.split(',')` throw, landing in the catch block, whose own evaluation
then throws a `ReferenceError` (see `searchCatch`). -/
def searchHandler (sources : QVal) (adz reed usa : List Job)
    (clock : Nat → Nat) : SearchOutcome :=
  match sources with
  | .str s => searchRespond (jsSplit ',' s) adz reed usa
  | .undef => searchRespond (jsSplit ',' "adzuna,reed,usajobs") adz reed usa
  | .arr _ =>
    match searchCatch [] clock with
    | .ok r => .failed r
    | .error e => .crashed e

/-- JavaScript `!!` on a string: true exactly for a non-empty string. -/
def jsBangBang (s : String) : Bool :=
  decide (s ≠ "")

/-- The `services` object of `GET /api/health` (lines 276–280). -/
structure HealthServices where
  adzuna : Bool
  reed : Bool
  usajobs : Bool
deriving DecidableEq

/-- The `GET /api/health` response body (lines 272–282). -/
structure HealthResp where
  status : String
  timestamp : Nat
  services : HealthServices
deriving DecidableEq

/-- The health handler (lines 272–282): synchronous, no outbound call; each
service boolean is the truthiness of the configured credential string. -/
def healthHandler (env : Env) (now : Nat) : HealthResp where
  status := "OK"
  timestamp := now
  services :=
    { adzuna := jsBangBang (adzunaAppId env)
      reed := jsBangBang (reedApiKey env)
      usajobs := jsBangBang (usajobsApiKey env) }

/-- One per-IP entry of the rate limiter: the start of the current window and
the points consumed in it. -/
structure RLEntry where
  start : Nat
  count : Nat
deriving DecidableEq

/-- The rate limiter's store: an association from IP to window entry. -/
def RLState : Type := List (String × RLEntry)

/-- Replace the entry for `ip`. -/
def rlSet (st : RLState) (ip : String) (e : RLEntry) : RLState :=
  (ip, e) :: (st.filter (fun p => !(p.1 = ip : Bool)))

/-- Modelled from the spec: the rate-limiter library
(`rate-limiter-flexible`'s `RateLimiterMemory`, configured at lines 16–20 with
10 points per 60 seconds, keyed by `req.ip`) is not part of the repository;
§4.4 says to treat it as a fixed-window token budget: a consume within the
current window succeeds while fewer than 10 points are consumed, and a consume
at or after the window's end starts a fresh window.  Times are in seconds. -/
def rlConsume (st : RLState) (ip : String) (now : Nat) : Bool × RLState :=
  match (st.find? (fun p => p.1 = ip)).map Prod.snd with
  | none => (true, rlSet st ip ⟨now, 1⟩)
  | some e =>
    if e.start + 60 ≤ now then (true, rlSet st ip ⟨now, 1⟩)
    else if e.count < 10 then (true, rlSet st ip ⟨e.start, e.count + 1⟩)
    else (false, st)

/-- What the rate-limiting middleware does with one request: pass it on to
route handling, or answer it directly. -/
inductive GateOutcome (α : Type) where
  | allowed (a : α)
  | limited (status : Nat) (error : String)
deriving DecidableEq

/-- The middleware (lines 22–26): `rateLimiter.consume(req.ip)` then `next()`,
or a 429 response with body `{ error: 'Too many requests' }`.  `r` is what
route handling would respond. -/
def gateOne (st : RLState) (ip : String) (now : Nat) (r : α) :
    GateOutcome α × RLState :=
  match rlConsume st ip now with
  | (true, st2) => (.allowed r, st2)
  | (false, st2) => (.limited 429 "Too many requests", st2)

/-- Run the gate over a sequence of requests `(ip, arrival time)`, the same
route response `r` standing for each request's route handling. -/
def runGate (st : RLState) (reqs : List (String × Nat)) (r : α) :
    List (GateOutcome α) × RLState :=
  match reqs with
  | [] => ([], st)
  | (ip, t) :: rest =>
    let (o, st2) := gateOne st ip t r
    let (os, st3) := runGate st2 rest r
    (o :: os, st3)

/-- A concrete record used in instantiations: title "T", company "C". -/
def jobTC1 : Job where
  id := some "a1"
  title := some "T"
  company := some "C"
  location := some "L1"
  salary := some "S1"
  description := some "first"
  url := none
  posted := some "P1"
  source := some "Adzuna"

/-- A second record with the same (title, company) pair as `jobTC1` but
different other fields. -/
def jobTC2 : Job where
  id := some "r7"
  title := some "T"
  company := some "C"
  location := some "L2"
  salary := some "S2"
  description := some "second"
  url := none
  posted := some "P2"
  source := some "Reed"

/-- A record with a different (title, company) pair. -/
def jobUC : Job where
  id := some "r8"
  title := some "U"
  company := some "C"
  location := some "L3"
  salary := some "S3"
  description := some "third"
  url := none
  posted := some "P3"
  source := some "Reed"

/-!  Theorems.  General-purpose lemmas come first, then one theorem per claim
(with its witness or counterexample where applicable). -/

/-- A string with a non-empty left part is non-empty. -/
theorem append_ne_empty_left (s t : String) (h : s ≠ "") :
    s ++ t ≠ "" := by
  intro hc
  apply h
  have h2 := congrArg String.length hc
  rw [String.length_append] at h2
  have h0 : ("" : String).length = 0 := rfl
  rw [h0] at h2
  have h3 : s.length = 0 := by omega
  cases s with
  | mk data =>
    cases data with
    | nil => rfl
    | cons c cs => simp [String.length] at h3

/-- `jsOr` with a non-empty default is non-empty. -/
theorem jsOr_ne_empty (x : Option String) (d : String) (hd : d ≠ "") :
    jsOr x d ≠ "" := by
  unfold jsOr
  match x with
  | none => exact hd
  | some s =>
    by_cases hs : s = "" <;> simp [hs, hd]

/-- The modelled locale date rendering is never empty. -/
theorem localeDateString_ne_empty (ms : Nat) : localeDateString ms ≠ "" := by
  unfold localeDateString
  exact append_ne_empty_left "day " _ (by decide)

/-- `jsDateString` is never empty. -/
theorem jsDateString_ne_empty (t : Option Nat) : jsDateString t ≠ "" := by
  unfold jsDateString
  match t with
  | some ms => exact localeDateString_ne_empty ms
  | none => decide

/-- The Adzuna salary string is never empty. -/
theorem adzunaSalary_ne_empty (mn mx : Option Nat) :
    adzunaSalary mn mx ≠ "" := by
  unfold adzunaSalary
  split
  · exact append_ne_empty_left _ _
      (append_ne_empty_left _ _ (append_ne_empty_left "£" _ (by decide)))
  · decide

/-- The Reed salary string is never empty. -/
theorem reedSalary_ne_empty (mn mx : Option Nat) : reedSalary mn mx ≠ "" := by
  unfold reedSalary
  split
  · exact append_ne_empty_left _ _
      (append_ne_empty_left _ _ (append_ne_empty_left "£" _ (by decide)))
  · decide

/-- The USAJobs salary string is never empty. -/
theorem usaSalary_ne_empty (r : Option USARem) : usaSalary r ≠ "" := by
  cases r with
  | none => decide
  | some rem =>
    show (if (jsTruthyS rem.minimumRange || jsTruthyS rem.maximumRange) = true
      then "$" ++ strOrEmpty rem.minimumRange ++ " - $" ++
        strOrEmpty rem.maximumRange
      else "Salary not specified") ≠ ""
    split
    · exact append_ne_empty_left _ _
        (append_ne_empty_left _ _ (append_ne_empty_left "$" _ (by decide)))
    · decide

/-- `!!` of a `||`-with-non-empty-default credential is true. -/
theorem jsBangBang_jsOr (x : Option String) (d : String) (hd : d ≠ "") :
    jsBangBang (jsOr x d) = true := by
  unfold jsBangBang
  simpa using jsOr_ne_empty x d hd

/-- `getFallbackJobs` always returns exactly 3 records. -/
theorem getFallbackJobs_length (keywords location source : Option String)
    (clock : Nat → Nat) :
    (getFallbackJobs keywords location source clock).length = 3 := rfl

/-- C9: for every environment configuration, all three booleans in the
`services` object of the `GET /api/health` response are true: each credential
expression falls back to a non-empty placeholder when its environment variable
is unset or empty, and each boolean is the truthiness of that always-non-empty
string, so the health report can never flag a missing credential as false. -/
theorem health_services_always_true (env : Env) (now : Nat) :
    (healthHandler env now).services = ⟨true, true, true⟩ := by
  simp only [healthHandler, adzunaAppId, reedApiKey, usajobsApiKey,
    HealthServices.mk.injEq]
  exact ⟨jsBangBang_jsOr _ _ (by decide), jsBangBang_jsOr _ _ (by decide),
    jsBangBang_jsOr _ _ (by decide)⟩

/-- C3 (code bug): when the combined-search orchestration fails inside the try
block (here: `sources` parses as an array, so `sources.split(',')` throws),
the catch block does not produce the claimed 500 response: it references
`keywords` and `location`, which are `const`-declared inside the try block and
not in scope in the catch, so evaluating the response body throws a
`ReferenceError` and no response is sent. -/
theorem search_catch_references_unbound_vars (adz reed usa : List Job)
    (clock : Nat → Nat) (l : List String) :
    searchHandler (.arr l) adz reed usa clock = .crashed "ReferenceError" := rfl

/-- C1 (amended): for every valid query to a single-provider endpoint, the
response is either HTTP 200 with `success:true` and one mapped JobRecord per
provider result item (possibly zero), or HTTP 500 with `success:false` and a
`jobs` array of exactly 3 fallback records. -/
theorem single_endpoint_success_or_fallback (env : Env) (q : JobQuery)
    (clock : Nat → Nat) :
    (∀ body : AdzunaBody,
       (adzunaHandler env q (.ok body) clock).2 =
         { status := 200, success := true,
           jobs := body.results.map adzunaMapJob, total := body.count }) ∧
    ((adzunaHandler env q .fail clock).2.status = 500 ∧
     (adzunaHandler env q .fail clock).2.success = false ∧
     (adzunaHandler env q .fail clock).2.jobs.length = 3) ∧
    (∀ body : ReedBody,
       (reedHandler env q (.ok body) clock).2 =
         { status := 200, success := true,
           jobs := body.results.map reedMapJob, total := body.totalResults }) ∧
    ((reedHandler env q .fail clock).2.status = 500 ∧
     (reedHandler env q .fail clock).2.success = false ∧
     (reedHandler env q .fail clock).2.jobs.length = 3) ∧
    (∀ body : USABody, ∀ jobs,
       body.searchResultItems.mapM usajobsMapJob = .ok jobs →
       (usajobsHandler env q (.ok body) clock).2 =
         { status := 200, success := true, jobs := jobs,
           total := body.searchResultCount }) ∧
    (∀ body : USABody, ∀ e,
       body.searchResultItems.mapM usajobsMapJob = .error e →
       (usajobsHandler env q (.ok body) clock).2.status = 500 ∧
       (usajobsHandler env q (.ok body) clock).2.success = false ∧
       (usajobsHandler env q (.ok body) clock).2.jobs.length = 3) ∧
    ((usajobsHandler env q .fail clock).2.status = 500 ∧
     (usajobsHandler env q .fail clock).2.success = false ∧
     (usajobsHandler env q .fail clock).2.jobs.length = 3) := by
  refine ⟨fun body => rfl, ⟨rfl, rfl, rfl⟩, fun body => rfl, ⟨rfl, rfl, rfl⟩,
    ?_, ?_, ⟨rfl, rfl, rfl⟩⟩
  · intro body jobs h
    unfold List.mapM at h
    simp [usajobsHandler, h]
  · intro body e h
    unfold List.mapM at h
    simp [usajobsHandler, h, getFallbackJobs_length]

/-- Witness for C1's theorem at concrete inputs: an empty Adzuna result list
yields the 200 branch, and a USAJobs item whose `UserArea` is missing yields
the 500 branch with 3 fallback records. -/
theorem single_endpoint_success_or_fallback_witness :
    (adzunaHandler (fun _ => none) {} (.ok { results := [] }) (fun _ => 0)).2 =
      { status := 200, success := true, jobs := [], total := none } ∧
    (usajobsHandler (fun _ => none) {}
      (.ok { searchResultItems := [{ userArea := none }] })
      (fun _ => 0)).2.status = 500 := by
  have h := single_endpoint_success_or_fallback (fun _ => none) {} (fun _ => 0)
  refine ⟨?_, ?_⟩
  · simpa using h.1 { results := [] }
  · exact (h.2.2.2.2.2.1 { searchResultItems := [{ userArea := none }] }
      "TypeError" rfl).1

/-- C1 as stated is false: a provider success with zero results yields
`success:true` with an empty `jobs` array, which is neither of the claim's two
cases. -/
theorem single_endpoint_dichotomy_cex :
    ¬ (((adzunaHandler (fun _ => none) {} (.ok { results := [] })
          (fun _ => 0)).2.success = true ∧
        (adzunaHandler (fun _ => none) {} (.ok { results := [] })
          (fun _ => 0)).2.jobs ≠ []) ∨
       ((adzunaHandler (fun _ => none) {} (.ok { results := [] })
          (fun _ => 0)).2.status = 500 ∧
        (adzunaHandler (fun _ => none) {} (.ok { results := [] })
          (fun _ => 0)).2.success = false ∧
        (adzunaHandler (fun _ => none) {} (.ok { results := [] })
          (fun _ => 0)).2.jobs.length = 3)) := by
  decide

/-- Every field of every fallback record is present and non-empty, for all
generator inputs. -/
theorem getFallbackJobs_fields (keywords location source : Option String)
    (clock : Nat → Nat) :
    ∀ rec ∈ getFallbackJobs keywords location source clock,
      jsTruthyS rec.id = true ∧ jsTruthyS rec.title = true ∧
      jsTruthyS rec.company = true ∧ jsTruthyS rec.location = true ∧
      jsTruthyS rec.salary = true ∧ jsTruthyS rec.description = true ∧
      jsTruthyS rec.url = true ∧ jsTruthyS rec.posted = true ∧
      jsTruthyS rec.source = true := by
  intro rec hrec
  simp only [getFallbackJobs, List.mem_cons, List.not_mem_nil, or_false]
    at hrec
  rcases hrec with h | h | h <;> subst h <;>
    refine ⟨?_, ?_, ?_, ?_, ?_, ?_, ?_, ?_, ?_⟩ <;>
    simp only [jsTruthyS, decide_eq_true_eq] <;>
    first
      | decide
      | exact localeDateString_ne_empty _
      | exact jsOr_ne_empty _ _ (by decide)
      | exact append_ne_empty_left _ _ (by decide)
      | exact append_ne_empty_left _ _ (jsOr_ne_empty _ _ (by decide))
      | exact append_ne_empty_left _ _ (append_ne_empty_left _ _ (by decide))

/-- C2 (amended): the fields backed by a placeholder or a constructed string
are always present and non-empty — for Adzuna: company, location, salary,
posted, source; for Reed and USAJobs: salary, posted, source.  The remaining
fields (id, title, description, url, and Reed's/USAJobs' company and
location) copy the provider's value through unchanged and may be absent or
empty.  Every `getFallbackJobs` record has all nine fields present and
non-empty, for every generator input. -/
theorem record_fields_presence :
    (∀ j : AdzunaJob,
       jsTruthyS (adzunaMapJob j).company = true ∧
       jsTruthyS (adzunaMapJob j).location = true ∧
       jsTruthyS (adzunaMapJob j).salary = true ∧
       jsTruthyS (adzunaMapJob j).posted = true ∧
       jsTruthyS (adzunaMapJob j).source = true) ∧
    (∀ j : ReedJob,
       jsTruthyS (reedMapJob j).salary = true ∧
       jsTruthyS (reedMapJob j).posted = true ∧
       jsTruthyS (reedMapJob j).source = true) ∧
    (∀ j : USAJob, ∀ rec, usajobsMapJob j = .ok rec →
       jsTruthyS rec.salary = true ∧ jsTruthyS rec.posted = true ∧
       jsTruthyS rec.source = true) ∧
    (∀ keywords location source clock,
       ∀ rec ∈ getFallbackJobs keywords location source clock,
         jsTruthyS rec.id = true ∧ jsTruthyS rec.title = true ∧
         jsTruthyS rec.company = true ∧ jsTruthyS rec.location = true ∧
         jsTruthyS rec.salary = true ∧ jsTruthyS rec.description = true ∧
         jsTruthyS rec.url = true ∧ jsTruthyS rec.posted = true ∧
         jsTruthyS rec.source = true) := by
  refine ⟨?_, ?_, ?_, fun k l s c => getFallbackJobs_fields k l s c⟩
  · intro j
    refine ⟨?_, ?_, ?_, ?_, ?_⟩ <;>
      simp only [adzunaMapJob, jsTruthyS, decide_eq_true_eq]
    · exact jsOr_ne_empty _ _ (by decide)
    · exact jsOr_ne_empty _ _ (by decide)
    · exact adzunaSalary_ne_empty _ _
    · exact jsDateString_ne_empty _
    · decide
  · intro j
    refine ⟨?_, ?_, ?_⟩ <;>
      simp only [reedMapJob, jsTruthyS, decide_eq_true_eq]
    · exact reedSalary_ne_empty _ _
    · exact jsDateString_ne_empty _
    · decide
  · intro j rec h
    rcases hu : j.userArea with _ | ua
    · simp [usajobsMapJob, hu] at h
    · rcases hd : ua.details with _ | d
      · simp [usajobsMapJob, hu, hd] at h
      · simp only [usajobsMapJob, hu, hd, Except.ok.injEq] at h
        subst h
        refine ⟨?_, ?_, ?_⟩ <;> simp only [jsTruthyS, decide_eq_true_eq]
        · exact usaSalary_ne_empty _
        · exact jsDateString_ne_empty _
        · decide

/-- Witness for C2's theorem at concrete inputs. -/
theorem record_fields_presence_witness :
    jsTruthyS (adzunaMapJob {}).company = true ∧
    jsTruthyS (reedMapJob {}).salary = true ∧
    (∃ rec, usajobsMapJob { userArea := some { details := some {} } } =
        .ok rec ∧ jsTruthyS rec.posted = true) ∧
    (∃ rec, (getFallbackJobs (some "data") (some "Berlin") (some "X")
        (fun _ => 0)).head? = some rec ∧ jsTruthyS rec.title = true) := by
  have h := record_fields_presence
  refine ⟨(h.1 {}).1, (h.2.1 {}).1, ?_, ?_⟩
  · refine ⟨_, rfl, ?_⟩
    exact (h.2.2.1 { userArea := some { details := some {} } } _ rfl).2.1
  · refine ⟨_, rfl, ?_⟩
    exact (h.2.2.2 (some "data") (some "Berlin") (some "X") (fun _ => 0) _
      (List.mem_cons_self _ _)).2.1

/-- C2 as stated is false: an Adzuna result item with no `description` maps to
a record whose `description` field is absent. -/
theorem record_fields_presence_cex :
    (adzunaMapJob {}).description = none ∧
    jsTruthyS (adzunaMapJob {}).description = false := by
  decide

/-- C6 (amended): the salary field is the provider's currency symbol + min +
" - " + symbol + max whenever min or max is JS-truthy (present and nonzero
for the numeric Adzuna/Reed fields, present and non-empty for the USAJobs
string ranges); a falsy component renders as the empty string while the
" - " separator is always included; when both components are falsy — which
includes a present value of 0 — the salary is the placeholder
"Salary not specified". -/
theorem salary_formatting (mn mx : Option Nat) (rm : USARem) :
    ((jsTruthyN mn || jsTruthyN mx) = true →
       adzunaSalary mn mx = "£" ++ numOrEmpty mn ++ " - £" ++ numOrEmpty mx) ∧
    ((jsTruthyN mn || jsTruthyN mx) = false →
       adzunaSalary mn mx = "Salary not specified") ∧
    reedSalary mn mx = adzunaSalary mn mx ∧
    ((jsTruthyS rm.minimumRange || jsTruthyS rm.maximumRange) = true →
       usaSalary (some rm) = "$" ++ strOrEmpty rm.minimumRange ++ " - $" ++
         strOrEmpty rm.maximumRange) ∧
    ((jsTruthyS rm.minimumRange || jsTruthyS rm.maximumRange) = false →
       usaSalary (some rm) = "Salary not specified") ∧
    usaSalary none = "Salary not specified" ∧
    (∀ j : AdzunaJob,
       (adzunaMapJob j).salary = some (adzunaSalary j.salary_min j.salary_max)) ∧
    (∀ j : ReedJob,
       (reedMapJob j).salary =
         some (reedSalary j.minimumSalary j.maximumSalary)) ∧
    (∀ j : USAJob, ∀ rec, usajobsMapJob j = .ok rec →
       rec.salary = some (usaSalary j.positionRemuneration.head?)) := by
  refine ⟨?_, ?_, rfl, ?_, ?_, rfl, fun j => rfl, fun j => rfl, ?_⟩
  · intro h; simp [adzunaSalary, h]
  · intro h; simp [adzunaSalary, h]
  · intro h; simp [usaSalary, h]
  · intro h; simp [usaSalary, h]
  · intro j rec h
    rcases hu : j.userArea with _ | ua
    · simp [usajobsMapJob, hu] at h
    · rcases hd : ua.details with _ | d
      · simp [usajobsMapJob, hu, hd] at h
      · simp only [usajobsMapJob, hu, hd, Except.ok.injEq] at h
        subst h
        rfl

/-- Witness for C6's theorem at concrete inputs. -/
theorem salary_formatting_witness :
    adzunaSalary (some 5) none = "£5 - £" ∧
    adzunaSalary none none = "Salary not specified" ∧
    usaSalary (some { minimumRange := some "50000" }) = "$50000 - $" := by
  refine ⟨?_, ?_, ?_⟩
  · rw [(salary_formatting (some 5) none {}).1 (by decide)]; decide
  · rw [(salary_formatting none none {}).2.1 (by decide)]
  · rw [(salary_formatting none none
      { minimumRange := some "50000" }).2.2.2.1 (by decide)]
    decide

/-- C6 as stated is false: a present salary minimum of 0 with an absent
maximum is treated as absent by the code (JS truthiness), producing the
placeholder instead of the claimed "£0 - £". -/
theorem salary_formatting_cex :
    adzunaSalary (some 0) none = "Salary not specified" ∧
    ("Salary not specified" : String) ≠ "£0 - £" := by
  decide

/-- C7 (amended): each adapter issues exactly one outbound call per request.
Adzuna applies the defaults keywords="software engineer", location="london",
page=1, resultsPerPage=20 to omitted parameters; Reed applies
keywords="software engineer" and location="london" and sends no page or
results-per-page parameter at all; USAJobs applies keywords="software" and
location="washington dc". -/
theorem adapter_defaults_and_single_call (env : Env) (q : JobQuery)
    (af : Fetch AdzunaBody) (rf : Fetch ReedBody) (uf : Fetch USABody)
    (clock : Nat → Nat) :
    (adzunaHandler env q af clock).1 = [adzunaCall env q] ∧
    (reedHandler env q rf clock).1 = [reedCall env q] ∧
    (usajobsHandler env q uf clock).1 = [usajobsCall env q] ∧
    (q.keywords = none →
       (adzunaCall env q).params.lookup "what" = some "software engineer" ∧
       (reedCall env q).params.lookup "keywords" = some "software engineer" ∧
       (usajobsCall env q).params.lookup "Keyword" = some "software") ∧
    (q.location = none →
       (adzunaCall env q).params.lookup "where" = some "london" ∧
       (reedCall env q).params.lookup "location" = some "london" ∧
       (usajobsCall env q).params.lookup "LocationName" =
         some "washington dc") ∧
    (q.page = none →
       (adzunaCall env q).url =
         "https://api.adzuna.com/v1/api/jobs/gb/search/1") ∧
    (q.resultsPerPage = none →
       (adzunaCall env q).params.lookup "results_per_page" = some "20") ∧
    (reedCall env q).params.lookup "page" = none ∧
    (reedCall env q).params.lookup "resultsPerPage" = none ∧
    (reedCall env q).params.lookup "results_per_page" = none := by
  refine ⟨rfl, rfl, rfl, ?_, ?_, ?_, ?_, ?_, ?_, ?_⟩
  · intro h
    refine ⟨?_, ?_, ?_⟩ <;> simp [adzunaCall, reedCall, usajobsCall, h,
      List.lookup]
  · intro h
    refine ⟨?_, ?_, ?_⟩ <;> simp [adzunaCall, reedCall, usajobsCall, h,
      List.lookup]
  · intro h
    simp [adzunaCall, h]
  · intro h
    simp [adzunaCall, h, List.lookup]
  · simp [reedCall, List.lookup]
  · simp [reedCall, List.lookup]
  · simp [reedCall, List.lookup]

/-- Witness for C7's theorem at concrete inputs. -/
theorem adapter_defaults_and_single_call_witness :
    (adzunaHandler (fun _ => none) {} .fail (fun _ => 0)).1.length = 1 ∧
    (adzunaCall (fun _ => none) {}).params.lookup "what" =
      some "software engineer" ∧
    (usajobsCall (fun _ => none) {}).params.lookup "Keyword" =
      some "software" := by
  have h := adapter_defaults_and_single_call (fun _ => none) {} .fail .fail
    .fail (fun _ => 0)
  refine ⟨?_, (h.2.2.2.1 rfl).1, (h.2.2.2.1 rfl).2.2⟩
  rw [h.1]
  rfl

/-- C7 as stated is false: the USAJobs adapter's default keywords value is
"software", not "software engineer" (and its default location is
"washington dc", not "london"). -/
theorem adapter_defaults_cex :
    (usajobsCall (fun _ => none) {}).params.lookup "Keyword" =
      some "software" ∧
    ("software" : String) ≠ "software engineer" ∧
    (usajobsCall (fun _ => none) {}).params.lookup "LocationName" =
      some "washington dc" ∧
    ("washington dc" : String) ≠ "london" := by
  decide

/-- Subtracting one day shifts the day index down by exactly one. -/
theorem dayIndex_sub_day (n : Nat) (h : 86400000 ≤ n) :
    dayIndex (n - 86400000) = dayIndex n - 1 := by
  unfold dayIndex
  have h2 : n - 86400000 + 86400000 = n := Nat.sub_add_cancel h
  have h3 : (n - 86400000 + 86400000) / 86400000 =
      (n - 86400000) / 86400000 + 1 := Nat.add_div_right _ (by decide)
  omega

/-- Subtracting two days shifts the day index down by exactly two. -/
theorem dayIndex_sub_two_days (n : Nat) (h : 172800000 ≤ n) :
    dayIndex (n - 172800000) = dayIndex n - 2 := by
  have h1 : n - 172800000 = n - 86400000 - 86400000 := by omega
  rw [h1, dayIndex_sub_day _ (by omega), dayIndex_sub_day _ (by omega)]
  omega

/-- C4 (amended): for every non-empty keywords, location and source,
`getFallbackJobs` returns exactly 3 records whose titles contain the
keywords, whose location and source equal the arguments, and whose `posted`
dates derive from an ambient time read minus exactly 0, 1 and 2 days
respectively; each `id` carries the `Date.now()` value read while building
that record.  `Date.now()` is called separately per record, so the three id
suffixes coincide exactly when the clock does not advance between the reads;
under a constant clock `now ≥ 2 days` the three posted day indices are
`dayIndex now`, `dayIndex now - 1`, `dayIndex now - 2`. -/
theorem getFallbackJobs_spec (kw loc src : String) (clock : Nat → Nat)
    (hk : kw ≠ "") (hl : loc ≠ "") (hs : src ≠ "") :
    getFallbackJobs (some kw) (some loc) (some src) clock =
      [{ id := some ("1-" ++ toString (clock 0)),
         title := some (kw ++ " Developer"),
         company := some "Tech Innovations Inc.",
         location := some loc,
         salary := some "$80,000 - $120,000",
         description := some ("We are looking for a skilled " ++ kw ++
           " developer to join our growing team."),
         url := some ("https://www.example.com/jobs/" ++
           encodeURIComponent kw ++ "-developer"),
         posted := some (localeDateString (clock 1)),
         source := some src },
       { id := some ("2-" ++ toString (clock 2)),
         title := some ("Senior " ++ kw ++ " Engineer"),
         company := some "Digital Solutions Ltd.",
         location := some loc,
         salary := some "$120,000 - $160,000",
         description := some ("Senior " ++ kw ++
           " position with leadership responsibilities."),
         url := some ("https://www.example.com/jobs/senior-" ++
           encodeURIComponent kw),
         posted := some (localeDateString (clock 3 - 86400000)),
         source := some src },
       { id := some ("3-" ++ toString (clock 4)),
         title := some (kw ++ " Specialist"),
         company := some "Tech Corp",
         location := some loc,
         salary := some "$90,000 - $130,000",
         description := some ("Join our team as a " ++ kw ++ " specialist."),
         url := some ("https://www.example.com/jobs/" ++
           encodeURIComponent kw ++ "-specialist"),
         posted := some (localeDateString (clock 5 - 172800000)),
         source := some src }] ∧
    (∀ now, (∀ i, clock i = now) →
       (getFallbackJobs (some kw) (some loc) (some src) clock).map Job.id =
         [some ("1-" ++ toString now), some ("2-" ++ toString now),
          some ("3-" ++ toString now)] ∧
       (172800000 ≤ now →
         (getFallbackJobs (some kw) (some loc) (some src) clock).map
             Job.posted =
           [some ("day " ++ toString (dayIndex now)),
            some ("day " ++ toString (dayIndex now - 1)),
            some ("day " ++ toString (dayIndex now - 2))])) := by
  refine ⟨by simp [getFallbackJobs, jsOr, hk, hl, hs], ?_⟩
  intro now hc
  constructor
  · simp [getFallbackJobs, hc]
  · intro hn
    have e1 : dayIndex (now - 86400000) = dayIndex now - 1 :=
      dayIndex_sub_day now (by omega)
    have e2 : dayIndex (now - 172800000) = dayIndex now - 2 :=
      dayIndex_sub_two_days now hn
    simp [getFallbackJobs, hc, localeDateString, e1, e2]

/-- Witness for C4's theorem at concrete inputs. -/
theorem getFallbackJobs_spec_witness :
    (getFallbackJobs (some "data") (some "Berlin") (some "X")
        (fun _ => 259200000)).map Job.id =
      [some "1-259200000", some "2-259200000", some "3-259200000"] ∧
    (getFallbackJobs (some "data") (some "Berlin") (some "X")
        (fun _ => 259200000)).map Job.posted =
      [some "day 3", some "day 2", some "day 1"] ∧
    (getFallbackJobs (some "data") (some "Berlin") (some "X")
        (fun _ => 259200000)).map Job.source =
      [some "X", some "X", some "X"] := by
  have h := getFallbackJobs_spec "data" "Berlin" "X" (fun _ => 259200000)
    (by decide) (by decide) (by decide)
  have h2 := h.2 259200000 (fun i => rfl)
  refine ⟨?_, ?_, ?_⟩
  · rw [h2.1]
    decide
  · rw [h2.2 (by decide)]
    decide
  · rw [h.1]
    decide

/-- C4 as stated is false: `Date.now()` is read separately for each record's
id, so a clock that advances between the reads yields three different id
timestamp suffixes. -/
theorem getFallbackJobs_same_timestamp_cex :
    ((getFallbackJobs (some "data") (some "Berlin") (some "X")
        (fun i => 100 + i)).map (fun j => (j.id.getD "").drop 2)) =
      ["100", "102", "104"] ∧
    ("100" : String) ≠ "102" := by
  decide

/-- `sameKeyB` is equality of the dedup keys. -/
theorem sameKeyB_eq (a b : Job) :
    sameKeyB a b = decide (jobKey a = jobKey b) := by
  simp [sameKeyB, jobKey, Prod.ext_iff]

/-- The duplicate test is reflexive. -/
theorem sameKeyB_refl (a : Job) : sameKeyB a a = true := by
  simp [sameKeyB]

/-- `dedupSeen` only depends on the membership of the seen set. -/
theorem dedupSeen_congr (s1 s2 : List (Option String × Option String))
    (l : List Job) (h : ∀ k, k ∈ s1 ↔ k ∈ s2) :
    dedupSeen s1 l = dedupSeen s2 l := by
  induction l generalizing s1 s2 with
  | nil => rfl
  | cons x xs ih =>
    simp only [dedupSeen]
    by_cases hx : jobKey x ∈ s1
    · rw [if_pos hx, if_pos ((h _).mp hx)]
      exact ih _ _ h
    · rw [if_neg hx, if_neg (fun hc => hx ((h _).mpr hc))]
      congr 1
      apply ih
      intro k
      simp only [List.mem_cons]
      rw [h k]

/-- `findIdx` over an append whose front part has no match. -/
theorem findIdx_append_of_none (q : Job → Bool) (front l : List Job)
    (h : ∀ a ∈ front, q a = false) :
    (front ++ l).findIdx q = front.length + l.findIdx q := by
  induction front with
  | nil => simp
  | cons b bs ih =>
    have hb : q b = false := h b (List.mem_cons_self _ _)
    rw [List.cons_append, List.findIdx_cons, hb]
    show (bs ++ l).findIdx q + 1 = (b :: bs).length + l.findIdx q
    rw [ih (fun a ha => h a (List.mem_cons_of_mem _ ha))]
    simp only [List.length_cons]
    omega

/-- `findIdx` over an append with a match in the front part stays in it. -/
theorem findIdx_append_lt (q : Job → Bool) (front l : List Job)
    (h : ∃ a ∈ front, q a = true) :
    (front ++ l).findIdx q < front.length := by
  induction front with
  | nil => simp at h
  | cons b bs ih =>
    rcases h with ⟨a, ha, hq⟩
    rw [List.cons_append, List.findIdx_cons]
    by_cases hb : q b = true
    · rw [hb]
      simp
    · have hb2 : q b = false := by simpa using hb
      rw [hb2]
      show (bs ++ l).findIdx q + 1 < (b :: bs).length
      rcases List.mem_cons.mp ha with rfl | ha2
      · exact absurd hq hb
      · have := ih ⟨a, ha2, hq⟩
        simp only [List.length_cons]
        omega

/-- The source's findIndex-based filter equals seen-set dedup: for any split
`front ++ xs` of the full list, filtering `xs` at absolute indices keeps
exactly the elements whose key is not among the keys of `front` nor of an
earlier element of `xs`. -/
theorem jsFilterIdx_eq_dedupSeen :
    ∀ (xs front : List Job),
      jsFilterIdx
        (fun i y =>
          decide ((front ++ xs).findIdx (fun j => sameKeyB j y) = i))
        xs front.length
      = dedupSeen (front.map jobKey) xs := by
  intro xs
  induction xs with
  | nil => intro front; rfl
  | cons y ys ih =>
    intro front
    simp only [jsFilterIdx]
    by_cases hmem : jobKey y ∈ front.map jobKey
    · have hex : ∃ a ∈ front, (fun j => sameKeyB j y) a = true := by
        rcases List.mem_map.mp hmem with ⟨a, ha, hk⟩
        refine ⟨a, ha, ?_⟩
        show sameKeyB a y = true
        rw [sameKeyB_eq]
        simp [hk]
      have hlt := findIdx_append_lt _ front (y :: ys) hex
      have hp :
          decide ((front ++ y :: ys).findIdx (fun j => sameKeyB j y) =
            front.length) = false := by
        simp only [decide_eq_false_iff_not]
        omega
      rw [if_neg (by simp only [decide_eq_true_eq]; omega)]
      have ih2 := ih (front ++ [y])
      rw [List.append_cons front y ys]
      have hlen : (front ++ [y]).length = front.length + 1 := by simp
      rw [← hlen]
      rw [ih2]
      rw [dedupSeen]
      rw [if_pos hmem]
      apply dedupSeen_congr
      intro k
      simp only [List.map_append, List.map_cons, List.map_nil,
        List.mem_append, List.mem_cons, List.not_mem_nil, or_false]
      constructor
      · rintro (hk | rfl)
        · exact hk
        · exact hmem
      · intro hk
        exact Or.inl hk
    · have hall : ∀ a ∈ front, (fun j => sameKeyB j y) a = false := by
        intro a ha
        show sameKeyB a y = false
        rw [sameKeyB_eq]
        simp only [decide_eq_false_iff_not]
        intro hk
        exact hmem (List.mem_map.mpr ⟨a, ha, hk⟩)
      have hfst : (y :: ys).findIdx (fun j => sameKeyB j y) = 0 := by
        rw [List.findIdx_cons, sameKeyB_refl]
        rfl
      have heq : (front ++ y :: ys).findIdx (fun j => sameKeyB j y) =
          front.length := by
        rw [findIdx_append_of_none _ _ _ hall, hfst]
        omega
      rw [if_pos (by simp only [decide_eq_true_eq]; exact heq)]
      have ih2 := ih (front ++ [y])
      rw [List.append_cons front y ys]
      have hlen : (front ++ [y]).length = front.length + 1 := by simp
      rw [← hlen]
      rw [ih2]
      rw [dedupSeen]
      rw [if_neg hmem]
      congr 1
      apply dedupSeen_congr
      intro k
      simp only [List.map_append, List.map_cons, List.map_nil,
        List.mem_append, List.mem_cons, List.not_mem_nil, or_false]
      tauto

/-- The source's `uniqueJobs` equals seen-set dedup started empty. -/
theorem uniqueJobs_eq_dedupSeen (l : List Job) :
    uniqueJobs l = dedupSeen [] l :=
  jsFilterIdx_eq_dedupSeen l []

/-- Seen-set dedup is first-occurrence dedup of the not-yet-seen part. -/
theorem dedupSeen_eq_dedupFirstOcc :
    ∀ (l : List Job) (seen : List (Option String × Option String)),
      dedupSeen seen l =
        dedupFirstOcc (l.filter (fun y => decide (jobKey y ∉ seen))) := by
  intro l
  induction l with
  | nil => intro seen; simp [dedupSeen, dedupFirstOcc]
  | cons x xs ih =>
    intro seen
    by_cases hx : jobKey x ∈ seen
    · rw [dedupSeen, if_pos hx, ih]
      congr 1
      rw [List.filter_cons]
      simp [hx]
    · rw [dedupSeen, if_neg hx, ih]
      rw [show (x :: xs).filter (fun y => decide (jobKey y ∉ seen)) =
          x :: xs.filter (fun y => decide (jobKey y ∉ seen)) from by
        rw [List.filter_cons]; simp [hx]]
      rw [dedupFirstOcc]
      congr 1
      rw [List.filter_filter]
      congr 1
      apply List.filter_congr
      intro a _
      by_cases h1 : jobKey a = jobKey x <;>
        by_cases h2 : jobKey a ∈ seen <;>
        simp [h1, h2, sameKeyB_eq]

/-- C5's core identity: the source's findIndex-based dedup is exactly the
spec's first-occurrence dedup. -/
theorem uniqueJobs_eq_dedupFirstOcc (l : List Job) :
    uniqueJobs l = dedupFirstOcc l := by
  rw [uniqueJobs_eq_dedupSeen, dedupSeen_eq_dedupFirstOcc]
  congr 1
  simp

/-- First-occurrence dedup returns a sublist of its input. -/
theorem dedupFirstOcc_sublist_aux :
    ∀ (n : Nat) (l : List Job), l.length ≤ n →
      List.Sublist (dedupFirstOcc l) l := by
  intro n
  induction n with
  | zero =>
    intro l hl
    have h0 : l = [] := List.length_eq_zero.mp (Nat.le_zero.mp hl)
    subst h0
    simp [dedupFirstOcc]
  | succ n ih =>
    intro l hl
    match l with
    | [] => simp [dedupFirstOcc]
    | x :: xs =>
      rw [dedupFirstOcc]
      refine List.Sublist.cons₂ x ?_
      have hlen : (xs.filter fun y => !(sameKeyB y x)).length ≤ n := by
        have h1 := List.length_filter_le (fun y => !(sameKeyB y x)) xs
        have h2 : xs.length ≤ n := by
          simp only [List.length_cons] at hl
          omega
        omega
      exact (ih _ hlen).trans (List.filter_sublist xs)

/-- First-occurrence dedup returns a sublist of its input. -/
theorem dedupFirstOcc_sublist (l : List Job) :
    List.Sublist (dedupFirstOcc l) l :=
  dedupFirstOcc_sublist_aux l.length l le_rfl

/-- Each key occurring in the input occurs exactly once after
first-occurrence dedup. -/
theorem dedupFirstOcc_countP_aux :
    ∀ (n : Nat) (l : List Job), l.length ≤ n → ∀ j ∈ l,
      (dedupFirstOcc l).countP (fun z => sameKeyB z j) = 1 := by
  intro n
  induction n with
  | zero =>
    intro l hl j hj
    have h0 : l = [] := List.length_eq_zero.mp (Nat.le_zero.mp hl)
    subst h0
    simp at hj
  | succ n ih =>
    intro l hl j hj
    match l, hj with
    | x :: xs, hj =>
      have hxs : xs.length ≤ n := by
        simp only [List.length_cons] at hl
        omega
      rw [dedupFirstOcc, List.countP_cons]
      by_cases hx : sameKeyB x j = true
      · have hkey : jobKey x = jobKey j := by
          rw [sameKeyB_eq] at hx
          simpa using hx
        have h0 : (dedupFirstOcc (xs.filter fun y =>
            !(sameKeyB y x))).countP (fun z => sameKeyB z j) = 0 := by
          rw [List.countP_eq_zero]
          intro z hz
          have hz2 : z ∈ xs.filter (fun y => !(sameKeyB y x)) :=
            (dedupFirstOcc_sublist _).subset hz
          have hzx : sameKeyB z x = false := by
            have h3 := (List.mem_filter.mp hz2).2
            simpa using h3
          rw [sameKeyB_eq] at hzx
          simp only [decide_eq_false_iff_not] at hzx
          show ¬ sameKeyB z j = true
          rw [sameKeyB_eq]
          simp only [decide_eq_true_eq]
          rw [← hkey]
          exact hzx
        rw [h0, hx]
        simp
      · have hx2 : sameKeyB x j = false := by simpa using hx
        have hjx : jobKey j ≠ jobKey x := by
          rw [sameKeyB_eq] at hx2
          simp only [decide_eq_false_iff_not] at hx2
          exact fun hc => hx2 hc.symm
        have hj2 : j ∈ xs := by
          rcases List.mem_cons.mp hj with rfl | h
          · exact absurd (sameKeyB_refl j) (by simpa using hx)
          · exact h
        have hj3 : j ∈ xs.filter (fun y => !(sameKeyB y x)) := by
          refine List.mem_filter.mpr ⟨hj2, ?_⟩
          rw [sameKeyB_eq]
          simp [hjx]
        have hlen : (xs.filter fun y => !(sameKeyB y x)).length ≤ n := by
          have h1 := List.length_filter_le (fun y => !(sameKeyB y x)) xs
          omega
        rw [ih _ hlen j hj3, hx2]
        simp

/-- `find?` is unchanged by filtering with a predicate that only removes
non-matching elements. -/
theorem find?_filter_of_imp (p q : Job → Bool) :
    ∀ (l : List Job), (∀ a, q a = false → p a = false) →
      (l.filter q).find? p = l.find? p := by
  intro l
  induction l with
  | nil => intro h; rfl
  | cons a l ih =>
    intro h
    rw [List.filter_cons]
    by_cases hq : q a = true
    · rw [if_pos hq]
      by_cases hp : p a = true
      · rw [List.find?_cons_of_pos _ hp, List.find?_cons_of_pos _ hp]
      · rw [List.find?_cons_of_neg _ (by simpa using hp),
          List.find?_cons_of_neg _ (by simpa using hp)]
        exact ih h
    · rw [if_neg hq]
      have hp : p a = false := h a (by simpa using hq)
      rw [List.find?_cons_of_neg _ (by simp [hp])]
      exact ih h

/-- First-occurrence dedup preserves the first match of every key. -/
theorem dedupFirstOcc_find?_aux :
    ∀ (n : Nat) (l : List Job), l.length ≤ n → ∀ j : Job,
      (dedupFirstOcc l).find? (fun z => sameKeyB z j) =
        l.find? (fun z => sameKeyB z j) := by
  intro n
  induction n with
  | zero =>
    intro l hl j
    have h0 : l = [] := List.length_eq_zero.mp (Nat.le_zero.mp hl)
    subst h0
    simp [dedupFirstOcc]
  | succ n ih =>
    intro l hl j
    match l with
    | [] => simp [dedupFirstOcc]
    | x :: xs =>
      rw [dedupFirstOcc]
      by_cases hx : sameKeyB x j = true
      · have e1 : List.find? (fun z => sameKeyB z j)
            (x :: dedupFirstOcc (xs.filter fun y => !(sameKeyB y x))) =
            some x := List.find?_cons_of_pos _ hx
        have e2 : List.find? (fun z => sameKeyB z j) (x :: xs) = some x :=
          List.find?_cons_of_pos _ hx
        rw [e1, e2]
      · have hx2 : sameKeyB x j = false := by simpa using hx
        have hjx : jobKey x ≠ jobKey j := by
          rw [sameKeyB_eq] at hx2
          simpa using hx2
        have e1 : List.find? (fun z => sameKeyB z j)
            (x :: dedupFirstOcc (xs.filter fun y => !(sameKeyB y x))) =
            List.find? (fun z => sameKeyB z j)
              (dedupFirstOcc (xs.filter fun y => !(sameKeyB y x))) :=
          List.find?_cons_of_neg _ (by simp [hx2])
        have e2 : List.find? (fun z => sameKeyB z j) (x :: xs) =
            List.find? (fun z => sameKeyB z j) xs :=
          List.find?_cons_of_neg _ (by simp [hx2])
        rw [e1, e2]
        have hlen : (xs.filter fun y => !(sameKeyB y x)).length ≤ n := by
          have h1 := List.length_filter_le (fun y => !(sameKeyB y x)) xs
          simp only [List.length_cons] at hl
          omega
        rw [ih _ hlen j]
        apply find?_filter_of_imp
        intro a ha
        have ha2 : sameKeyB a x = true := by
          simpa using ha
        rw [sameKeyB_eq] at ha2
        simp only [decide_eq_true_eq] at ha2
        rw [sameKeyB_eq]
        simp only [decide_eq_false_iff_not]
        rw [ha2]
        exact fun hc => hjx hc

/-- C5: in every `GET /api/jobs/search` response, whenever records in the
merged list share an identical (title, company) pair (case-sensitive exact
match), exactly one record with that pair appears in the returned jobs,
namely the first occurrence in merge order, where the providers contribute in
the fixed order adzuna, reed, usajobs (the default source list) and each
provider's internal order is preserved: the returned list is exactly the
first-occurrence dedup of `adz ++ reed ++ usa`, each input key appears exactly
once, and each surviving record is the input's first match for its key. -/
theorem search_dedup_first_occurrence (adz reed usa : List Job)
    (clock : Nat → Nat) :
    ∃ r, searchHandler .undef adz reed usa clock = .responded r ∧
      r.jobs = dedupFirstOcc (adz ++ reed ++ usa) ∧
      ∀ j ∈ adz ++ reed ++ usa,
        r.jobs.countP (fun z => sameKeyB z j) = 1 ∧
        r.jobs.find? (fun z => sameKeyB z j) =
          (adz ++ reed ++ usa).find? (fun z => sameKeyB z j) := by
  have hm : searchMerge (jsSplit ',' "adzuna,reed,usajobs") adz reed usa =
      adz ++ reed ++ usa := rfl
  have hjobs : uniqueJobs (searchMerge (jsSplit ',' "adzuna,reed,usajobs")
      adz reed usa) = dedupFirstOcc (adz ++ reed ++ usa) := by
    rw [hm, uniqueJobs_eq_dedupFirstOcc]
  refine ⟨_, rfl, hjobs, ?_⟩
  intro j hj
  constructor
  · rw [hjobs]
    exact dedupFirstOcc_countP_aux (adz ++ reed ++ usa).length _ le_rfl j hj
  · rw [hjobs]
    exact dedupFirstOcc_find?_aux (adz ++ reed ++ usa).length _ le_rfl j

/-- Witness for C5's theorem: adzuna's record and reed's first record share
the (title, company) pair ("T", "C"); the merged response keeps exactly one
record with that pair, namely adzuna's (the earlier provider). -/
theorem search_dedup_first_occurrence_witness :
    ∃ r, searchHandler .undef [jobTC1] [jobTC2, jobUC] [] (fun _ => 0) =
        .responded r ∧
      r.jobs.countP (fun z => sameKeyB z jobTC2) = 1 ∧
      r.jobs.find? (fun z => sameKeyB z jobTC2) = some jobTC1 := by
  obtain ⟨r, h1, h2, h3⟩ :=
    search_dedup_first_occurrence [jobTC1] [jobTC2, jobUC] [] (fun _ => 0)
  obtain ⟨hc, hf⟩ := h3 jobTC2 (by decide)
  refine ⟨r, h1, hc, ?_⟩
  rw [hf]
  decide

/-- C10: for every `sources` query string given to `GET /api/jobs/search`,
the response's `sources` array echoes every comma-separated token of the
input verbatim, the merged jobs depend only on whether the three known tokens
"adzuna", "reed", "usajobs" are among the tokens (so unknown tokens
contribute zero jobs), and a sources value containing no known provider token
yields `success:true` with `jobs = []` and `total = 0` rather than an
error. -/
theorem search_sources_echo (s : String) (adz reed usa : List Job)
    (clock : Nat → Nat) :
    ∃ r, searchHandler (.str s) adz reed usa clock = .responded r ∧
      r.sources = jsSplit ',' s ∧
      r.jobs = uniqueJobs
        ((if "adzuna" ∈ jsSplit ',' s then adz else []) ++
         (if "reed" ∈ jsSplit ',' s then reed else []) ++
         (if "usajobs" ∈ jsSplit ',' s then usa else [])) ∧
      r.total = r.jobs.length ∧
      ("adzuna" ∉ jsSplit ',' s → "reed" ∉ jsSplit ',' s →
        "usajobs" ∉ jsSplit ',' s →
        r.success = true ∧ r.jobs = [] ∧ r.total = 0) := by
  refine ⟨_, rfl, rfl, rfl, rfl, ?_⟩
  intro h1 h2 h3
  refine ⟨rfl, ?_, ?_⟩
  · show uniqueJobs (searchMerge (jsSplit ',' s) adz reed usa) = []
    unfold searchMerge
    rw [if_neg h1, if_neg h2, if_neg h3]
    rfl
  · show (uniqueJobs (searchMerge (jsSplit ',' s) adz reed usa)).length = 0
    unfold searchMerge
    rw [if_neg h1, if_neg h2, if_neg h3]
    rfl

/-- Witness for C10's theorem: a sources list with no known provider token
echoes its tokens and returns an empty success response. -/
theorem search_sources_echo_witness :
    ∃ r, searchHandler (.str "linkedin,monster") [jobTC1] [jobTC2] [jobUC]
        (fun _ => 0) = .responded r ∧
      r.sources = ["linkedin", "monster"] ∧
      r.success = true ∧ r.jobs = [] ∧ r.total = 0 := by
  obtain ⟨r, h1, hs, hj, ht, himp⟩ := search_sources_echo "linkedin,monster"
    [jobTC1] [jobTC2] [jobUC] (fun _ => 0)
  obtain ⟨hsucc, hjobs, htot⟩ := himp (by decide) (by decide) (by decide)
  refine ⟨r, h1, ?_, hsucc, hjobs, htot⟩
  rw [hs]
  decide

/-- A consume for an unknown IP starts a fresh window. -/
theorem rlConsume_fresh (ip : String) (t : Nat) :
    rlConsume [] ip t = (true, [(ip, ⟨t, 1⟩)]) := rfl

/-- A consume inside the current window increments while fewer than 10 points
are used, and is rejected once 10 are used. -/
theorem rlConsume_same_window (ip : String) (t0 c t : Nat)
    (h1 : t0 ≤ t) (h2 : t < t0 + 60) :
    rlConsume [(ip, ⟨t0, c⟩)] ip t =
      if c < 10 then (true, [(ip, ⟨t0, c + 1⟩)])
      else (false, [(ip, ⟨t0, c⟩)]) := by
  have hfind : ([(ip, (⟨t0, c⟩ : RLEntry))].find? (fun p => p.1 = ip)) =
      some (ip, ⟨t0, c⟩) := List.find?_cons_of_pos _ (by simp)
  unfold rlConsume
  rw [hfind]
  show (if t0 + 60 ≤ t then _ else _) = _
  rw [if_neg (by omega)]
  by_cases hc : c < 10
  · rw [if_pos hc, if_pos hc]
    simp [rlSet]
  · rw [if_neg hc, if_neg hc]

/-- A consume at or after the window's end starts a fresh window. -/
theorem rlConsume_expired (ip : String) (t0 c t : Nat)
    (h : t0 + 60 ≤ t) :
    rlConsume [(ip, ⟨t0, c⟩)] ip t = (true, [(ip, ⟨t, 1⟩)]) := by
  have hfind : ([(ip, (⟨t0, c⟩ : RLEntry))].find? (fun p => p.1 = ip)) =
      some (ip, ⟨t0, c⟩) := List.find?_cons_of_pos _ (by simp)
  unfold rlConsume
  rw [hfind]
  show (if t0 + 60 ≤ t then _ else _) = _
  rw [if_pos h]
  simp [rlSet]

/-- `runGate` distributes over an append of request sequences. -/
theorem runGate_append (st : RLState) (l1 l2 : List (String × Nat))
    (r : α) :
    runGate st (l1 ++ l2) r =
      ((runGate st l1 r).1 ++ (runGate (runGate st l1 r).2 l2 r).1,
       (runGate (runGate st l1 r).2 l2 r).2) := by
  induction l1 generalizing st with
  | nil => simp [runGate]
  | cons x l1 ih =>
    match x with
    | (ip, t) =>
      simp only [List.cons_append, runGate, List.append_eq]
      rw [ih]

/-- Inside one window, starting from `c` consumed points, the gate admits the
`i`-th further request exactly when `c + i < 10`, and the consumed count ends
at `min (c + k) 10`. -/
theorem runGate_window_aux (ip : String) (t0 : Nat) (r : α) :
    ∀ (ts : List Nat) (c : Nat), 1 ≤ c → c ≤ 10 →
      (∀ t ∈ ts, t0 ≤ t ∧ t < t0 + 60) →
      runGate [(ip, ⟨t0, c⟩)] (ts.map (fun t => (ip, t))) r =
        ((List.range ts.length).map
          (fun i => if c + i < 10 then GateOutcome.allowed r
            else .limited 429 "Too many requests"),
         [(ip, ⟨t0, min (c + ts.length) 10⟩)]) := by
  intro ts
  induction ts with
  | nil =>
    intro c h1 h10 hw
    simp only [List.map_nil, runGate, List.range_zero, List.length_nil]
    have hmin : min (c + 0) 10 = c := by omega
    rw [hmin]
  | cons t ts ih =>
    intro c h1 h10 hw
    have hwt := hw t (List.mem_cons_self _ _)
    simp only [List.map_cons, runGate, gateOne,
      rlConsume_same_window ip t0 c t hwt.1 hwt.2]
    by_cases hc : c < 10
    · rw [if_pos hc]
      rw [ih (c + 1) (by omega) (by omega)
        (fun u hu => hw u (List.mem_cons_of_mem _ hu))]
      simp only [List.length_cons, List.range_succ_eq_map, List.map_cons,
        List.map_map]
      have hmin : min (c + 1 + ts.length) 10 = min (c + (ts.length + 1)) 10 :=
        by omega
      rw [hmin]
      have hhead : (if c + 0 < 10 then GateOutcome.allowed r
          else GateOutcome.limited 429 "Too many requests") =
          GateOutcome.allowed r := by
        rw [if_pos (by omega)]
      rw [hhead]
      have htail : (List.range ts.length).map
          ((fun i => if c + i < 10 then GateOutcome.allowed r
            else GateOutcome.limited 429 "Too many requests") ∘ Nat.succ) =
          (List.range ts.length).map
          (fun i => if c + 1 + i < 10 then GateOutcome.allowed r
            else GateOutcome.limited 429 "Too many requests") := by
        apply List.map_congr_left
        intro i _
        show (if c + (i + 1) < 10 then GateOutcome.allowed r
          else GateOutcome.limited 429 "Too many requests") = _
        have harith : c + (i + 1) < 10 ↔ c + 1 + i < 10 := by omega
        by_cases hci : c + 1 + i < 10
        · rw [if_pos (by omega), if_pos hci]
        · rw [if_neg (by omega), if_neg hci]
      rw [htail]
    · rw [if_neg hc]
      have hc10 : c = 10 := by omega
      subst hc10
      rw [ih 10 (by omega) (by omega)
        (fun u hu => hw u (List.mem_cons_of_mem _ hu))]
      simp only [List.length_cons, List.range_succ_eq_map, List.map_cons,
        List.map_map]
      have hmin : min (10 + ts.length) 10 = min (10 + (ts.length + 1)) 10 :=
        by omega
      rw [hmin]
      have hhead : (if 10 + 0 < 10 then GateOutcome.allowed r
          else GateOutcome.limited 429 "Too many requests") =
          GateOutcome.limited 429 "Too many requests" := by
        rw [if_neg (by omega)]
      rw [hhead]
      have htail : (List.range ts.length).map
          ((fun i => if 10 + i < 10 then GateOutcome.allowed r
            else GateOutcome.limited 429 "Too many requests") ∘ Nat.succ) =
          (List.range ts.length).map
          (fun i => if 10 + i < 10 then GateOutcome.allowed r
            else GateOutcome.limited 429 "Too many requests") := by
        apply List.map_congr_left
        intro i _
        show (if 10 + (i + 1) < 10 then GateOutcome.allowed r
          else GateOutcome.limited 429 "Too many requests") = _
        rw [if_neg (by omega), if_neg (by omega)]
      rw [htail]

/-- C8: for a client IP whose requests all arrive within one 60-second window
(anchored at the first request), the gate passes the 1st through 10th request
on to route handling and answers the 11th and later directly with status 429
and error body "Too many requests", before any provider or aggregation logic
(the route handler `r` is never invoked for them); a request at or after the
window's end finds the budget reset and is passed on again. -/
theorem rate_limit_window {α : Type} (ip : String) (t0 : Nat)
    (ts : List Nat) (t1 : Nat) (r : α)
    (hw : ∀ t ∈ ts, t0 ≤ t ∧ t < t0 + 60) (ht1 : t0 + 60 ≤ t1) :
    runGate [] (((t0 :: ts) ++ [t1]).map (fun t => (ip, t))) r =
      ((List.range (ts.length + 1)).map
          (fun i => if i < 10 then GateOutcome.allowed r
            else GateOutcome.limited 429 "Too many requests") ++
        [GateOutcome.allowed r],
       [(ip, ⟨t1, 1⟩)]) := by
  rw [List.map_append, runGate_append]
  have h1 : runGate [] ((t0 :: ts).map (fun t => (ip, t))) r =
      ((List.range (ts.length + 1)).map
          (fun i => if i < 10 then GateOutcome.allowed r
            else GateOutcome.limited 429 "Too many requests"),
        [(ip, ⟨t0, min (1 + ts.length) 10⟩)]) := by
    simp only [List.map_cons, runGate, gateOne, rlConsume_fresh]
    rw [runGate_window_aux ip t0 r ts 1 le_rfl (by omega) hw]
    simp only [List.range_succ_eq_map, List.map_cons, List.map_map]
    have hhead : (if (0 : Nat) < 10 then GateOutcome.allowed r
        else GateOutcome.limited 429 "Too many requests") =
        GateOutcome.allowed r := by rw [if_pos (by omega)]
    rw [hhead]
    have htail : (List.range ts.length).map
        ((fun i => if i < 10 then GateOutcome.allowed r
          else GateOutcome.limited 429 "Too many requests") ∘ Nat.succ) =
        (List.range ts.length).map
        (fun i => if 1 + i < 10 then GateOutcome.allowed r
          else GateOutcome.limited 429 "Too many requests") := by
      apply List.map_congr_left
      intro i _
      show (if i + 1 < 10 then GateOutcome.allowed r
        else GateOutcome.limited 429 "Too many requests") = _
      by_cases hci : i + 1 < 10
      · rw [if_pos hci, if_pos (by omega)]
      · rw [if_neg hci, if_neg (by omega)]
    rw [htail]
  rw [h1]
  have h2 : runGate [(ip, (⟨t0, min (1 + ts.length) 10⟩ : RLEntry))]
      ([t1].map (fun t => (ip, t))) r =
      ([GateOutcome.allowed r], [(ip, ⟨t1, 1⟩)]) := by
    simp only [List.map_cons, List.map_nil, runGate, gateOne,
      rlConsume_expired ip t0 _ t1 ht1]
  rw [h2]

/-- Witness for C8's theorem: 12 requests in the same second followed by one
at the window's end — requests 1–10 pass, 11 and 12 are limited, and the
request after the window passes again. -/
theorem rate_limit_window_witness :
    runGate [] ((((0 : Nat) :: List.replicate 11 0) ++ [60]).map
        (fun t => ("9.9.9.9", t))) (7 : Nat) =
      ((List.range 12).map
          (fun i => if i < 10 then GateOutcome.allowed 7
            else GateOutcome.limited 429 "Too many requests") ++
        [GateOutcome.allowed 7],
       [("9.9.9.9", ⟨60, 1⟩)]) :=
  rate_limit_window "9.9.9.9" 0 (List.replicate 11 0) 60 7 (by decide)
    (by decide)
